import Mathlib

/-
Verification of the fart vector-drawing core against its specification.

The development shallowly embeds the Rust sources:
  src/src/canvas.rs            (Canvas, Layer, fit_view_to_paths, draw*, create_svg)
  src/src/units.rs             (Paper, make_square)
  src/crates/2d-geom/src/polyline.rs (Polyline)

f64 scalars are modelled as rationals (exact arithmetic; the claims under
study involve no NaN or rounding behaviour).  FloatOrd's total order agrees
with the numeric order on all non-NaN values, hence with the order on ℚ.
The aabb and path modules are referenced by canvas.rs but their sources are
absent from the snapshot; the definitions taken from the spec instead of the
source are marked with doc comments starting with the words Modelled from
the spec.  Panics (assert!, unimplemented!, unwrap on None) are modelled as
Option/Except failures.
-/

/-- Decidable equality on Except values, used to evaluate the modelled
fallible operations on concrete inputs. -/
instance instDecEqExcept {ε α : Type} [DecidableEq ε] [DecidableEq α] :
    DecidableEq (Except ε α) := fun x y =>
  match x, y with
  | Except.ok a, Except.ok b => decidable_of_iff (a = b) (by simp)
  | Except.ok _, Except.error _ => isFalse (by intro h; cases h)
  | Except.error _, Except.ok _ => isFalse (by intro h; cases h)
  | Except.error e, Except.error f => decidable_of_iff (e = f) (by simp)

namespace Fart

/-- Point2D of f64: an (x, y) pair of scalars.  Vector2D payloads are
modelled with the same carrier. -/
structure Point where
  x : ℚ
  y : ℚ
deriving DecidableEq

/-- LineCommand from the path module (absent from the snapshot): variant
names and payload shapes are exactly those matched on by
Canvas::fit_view_to_paths in src/src/canvas.rs, and the variant list agrees
with the spec's command vocabulary (absolute and relative move/line/
horizontal/vertical, cubic and quadratic Bezier with smooth variants, arc,
close).  The field written end in Rust is called endp here. -/
inductive LineCommand where
  | MoveTo (p : Point)
  | MoveBy (v : Point)
  | LineTo (p : Point)
  | LineBy (v : Point)
  | HorizontalLineTo (x : ℚ)
  | HorizontalLineBy (x : ℚ)
  | VerticalLineTo (y : ℚ)
  | VerticalLineBy (y : ℚ)
  | Close
  | CubicBezierTo (control_1 control_2 endp : Point)
  | CubicBezierBy (control_1 control_2 endp : Point)
  | SmoothCubicBezierTo (control endp : Point)
  | SmoothCubicBezierBy (control endp : Point)
  | QuadraticBezierTo (control endp : Point)
  | QuadraticBezierBy (control endp : Point)
  | SmoothQuadtraticCurveTo (p : Point)
  | SmoothQuadtraticCurveBy (v : Point)
  | ArcTo (radii : Point) (x_axis_rotation : ℚ) (large_arc sweep : Bool) (endp : Point)
  | ArcBy (radii : Point) (x_axis_rotation : ℚ) (large_arc sweep : Bool) (endp : Point)
deriving DecidableEq

/-- Path: an ordered sequence of LineCommands (field commands is read
directly by canvas.rs as path.commands). -/
structure Path where
  commands : List LineCommand
deriving DecidableEq

/-- euclid::Transform2D, row-vector convention: a point p maps to
(p.x*m11 + p.y*m21 + m31, p.x*m12 + p.y*m22 + m32). -/
structure Transform2D where
  m11 : ℚ
  m12 : ℚ
  m21 : ℚ
  m22 : ℚ
  m31 : ℚ
  m32 : ℚ
deriving DecidableEq

def Transform2D.applyPoint (t : Transform2D) (p : Point) : Point :=
  ⟨p.x * t.m11 + p.y * t.m21 + t.m31, p.x * t.m12 + p.y * t.m22 + t.m32⟩

/-- Vectors are transformed by the linear part only (euclid
transform_vector ignores the translation row). -/
def Transform2D.applyVec (t : Transform2D) (v : Point) : Point :=
  ⟨v.x * t.m11 + v.y * t.m21, v.x * t.m12 + v.y * t.m22⟩

def Transform2D.scale (sx sy : ℚ) : Transform2D :=
  ⟨sx, 0, 0, sy, 0, 0⟩

def Transform2D.translation (tx ty : ℚ) : Transform2D :=
  ⟨1, 0, 0, 1, tx, ty⟩

def Transform2D.then_translate (t : Transform2D) (vx vy : ℚ) : Transform2D :=
  { t with m31 := t.m31 + vx, m32 := t.m32 + vy }

/-- Modelled from the spec: Path::transform lives in the absent path
module.  Spec 4.2: transform(T) applies the affine map to every point and
control point of every command, producing a new Path; it is a pure
function, distributive over the command sequence.  Point payloads receive
the affine map, vector payloads (the By variants) the linear part, scalar
payloads of horizontal/vertical commands the corresponding coordinate map;
arc flags and rotation are unchanged. -/
def LineCommand.transform (t : Transform2D) : LineCommand → LineCommand
  | .MoveTo p => .MoveTo (t.applyPoint p)
  | .MoveBy v => .MoveBy (t.applyVec v)
  | .LineTo p => .LineTo (t.applyPoint p)
  | .LineBy v => .LineBy (t.applyVec v)
  | .HorizontalLineTo x => .HorizontalLineTo (t.applyPoint ⟨x, 0⟩).x
  | .HorizontalLineBy x => .HorizontalLineBy (t.applyVec ⟨x, 0⟩).x
  | .VerticalLineTo y => .VerticalLineTo (t.applyPoint ⟨0, y⟩).y
  | .VerticalLineBy y => .VerticalLineBy (t.applyVec ⟨0, y⟩).y
  | .Close => .Close
  | .CubicBezierTo c1 c2 e =>
      .CubicBezierTo (t.applyPoint c1) (t.applyPoint c2) (t.applyPoint e)
  | .CubicBezierBy c1 c2 e =>
      .CubicBezierBy (t.applyVec c1) (t.applyVec c2) (t.applyVec e)
  | .SmoothCubicBezierTo c e => .SmoothCubicBezierTo (t.applyPoint c) (t.applyPoint e)
  | .SmoothCubicBezierBy c e => .SmoothCubicBezierBy (t.applyVec c) (t.applyVec e)
  | .QuadraticBezierTo c e => .QuadraticBezierTo (t.applyPoint c) (t.applyPoint e)
  | .QuadraticBezierBy c e => .QuadraticBezierBy (t.applyVec c) (t.applyVec e)
  | .SmoothQuadtraticCurveTo p => .SmoothQuadtraticCurveTo (t.applyPoint p)
  | .SmoothQuadtraticCurveBy v => .SmoothQuadtraticCurveBy (t.applyVec v)
  | .ArcTo r rot la sw e => .ArcTo (t.applyVec r) rot la sw (t.applyPoint e)
  | .ArcBy r rot la sw e => .ArcBy (t.applyVec r) rot la sw (t.applyVec e)

/-- Modelled from the spec: see LineCommand.transform. -/
def Path.transform (p : Path) (t : Transform2D) : Path :=
  ⟨p.commands.map (LineCommand.transform t)⟩

/-- Axis-aligned bounding box: min and max corners. -/
structure Aabb where
  min : Point
  max : Point
deriving DecidableEq

/-- Modelled from the spec: Aabb::new lives in the absent aabb module.
Spec 3: for an AABB, min.x <= max.x and min.y <= max.y is an invariant
established at construction; a violating construction is a failure
(asserted), modelled as none. -/
def Aabb.new (mn mx : Point) : Option Aabb :=
  if mn.x ≤ mx.x ∧ mn.y ≤ mx.y then some ⟨mn, mx⟩ else none

/-- Modelled from the spec: width derives from the corners. -/
def Aabb.width (b : Aabb) : ℚ :=
  b.max.x - b.min.x

/-- Modelled from the spec: height derives from the corners. -/
def Aabb.height (b : Aabb) : ℚ :=
  b.max.y - b.min.y

/-- Linear RGB color triple (palette LinSrgb). -/
structure Rgb where
  r : ℚ
  g : ℚ
  b : ℚ
deriving DecidableEq

/-- Pen capability: supplies a stroke color and a nib size in millimeters,
read at layer-creation time. -/
structure Pen where
  rgb_color : Rgb
  nib_size_mm : ℚ
deriving DecidableEq

/-- Paper as accessed by canvas.rs: gross width and height, a uniform
margin field, and the unit family's SUFFIX string (the Unit type parameter
of Canvas, e.g. mm for Millis). -/
structure CanvasPaper where
  width : ℚ
  height : ℚ
  margin : ℚ
  suffix : String
deriving DecidableEq

/-- Layer: id counter value, paths, captured pen color and nib size. -/
structure Layer where
  id : Nat
  paths : List Path
  color : Rgb
  nib_size : ℚ
deriving DecidableEq

/-- Canvas: paper, view AABB, slotmap of layers, and the layer id counter.
The slotmap is modelled as an association list in slot order together with
a fresh-key counter next_key: slotmap keys are generational, so a removed
key is never reissued, which the ever-increasing counter captures. -/
structure Canvas where
  paper : CanvasPaper
  view : Aabb
  layers : List (Nat × Layer)
  layer_id_counter : Nat
  next_key : Nat
deriving DecidableEq

/-- Canvas::new: view is Aabb::new((0,0), (paper.width, paper.height)),
layers empty, counter zero. -/
def Canvas.new (paper : CanvasPaper) : Option Canvas :=
  (Aabb.new ⟨0, 0⟩ ⟨paper.width, paper.height⟩).map fun v =>
    { paper := paper, view := v, layers := [], layer_id_counter := 0, next_key := 0 }

/-- Canvas::width: paper.width - paper.margin - paper.margin. -/
def Canvas.width (c : Canvas) : ℚ :=
  c.paper.width - c.paper.margin - c.paper.margin

/-- Canvas::height: paper.height - paper.margin - paper.margin. -/
def Canvas.height (c : Canvas) : ℚ :=
  c.paper.height - c.paper.margin - c.paper.margin

/-- Canvas::canvas_transform: scale by (width(), height()) then translate
by (margin, margin). -/
def Canvas.canvas_transform (c : Canvas) : Transform2D :=
  (Transform2D.scale c.width c.height).then_translate c.paper.margin c.paper.margin

/-- Canvas::set_view. -/
def Canvas.set_view (c : Canvas) (v : Aabb) : Canvas :=
  { c with view := v }

/-- Canvas::margin_transform: translation by (margin, margin). -/
def Canvas.margin_transform (c : Canvas) : Transform2D :=
  Transform2D.translation c.paper.margin c.paper.margin

/-- Key membership in the layer slotmap. -/
def Canvas.contains_key (c : Canvas) (k : Nat) : Bool :=
  c.layers.any fun kl => kl.1 == k

/-- Canvas::create_layer: insert a fresh layer with an empty path list, the
current id counter and the pen's color and nib size; increment the counter;
return the new canvas and the fresh key. -/
def Canvas.create_layer (c : Canvas) (pen : Pen) : Canvas × Nat :=
  ({ c with
      layers := c.layers ++
        [(c.next_key,
          { id := c.layer_id_counter, paths := [], color := pen.rgb_color,
            nib_size := pen.nib_size_mm })],
      layer_id_counter := c.layer_id_counter + 1,
      next_key := c.next_key + 1 },
   c.next_key)

/-- Canvas::remove_layer: slotmap remove, ok on a live key, typed error
(Result with unit error, ok_or(())) on an unknown key. -/
def Canvas.remove_layer (c : Canvas) (k : Nat) : Except Unit Canvas :=
  if c.contains_key k then
    Except.ok { c with layers := c.layers.eraseP fun kl => kl.1 == k }
  else
    Except.error ()

/-- Canvas::draw: get_layer unwraps the slotmap lookup, so an unknown key
is a panic, modelled as none; otherwise each path is transformed by the
margin transform and pushed onto the layer. -/
def Canvas.draw (c : Canvas) (k : Nat) (paths : List Path) : Option Canvas :=
  if c.contains_key k then
    some { c with
      layers := c.layers.map fun kl =>
        if kl.1 == k then
          (kl.1, { kl.2 with
            paths := kl.2.paths ++ paths.map fun p => p.transform c.margin_transform })
        else kl }
  else
    none

/-- Canvas::draw_n: like draw but with the full normalized-to-canvas
projection canvas_transform. -/
def Canvas.draw_n (c : Canvas) (k : Nat) (paths : List Path) : Option Canvas :=
  if c.contains_key k then
    some { c with
      layers := c.layers.map fun kl =>
        if kl.1 == k then
          (kl.1, { kl.2 with
            paths := kl.2.paths ++ paths.map fun p => p.transform c.canvas_transform })
        else kl }
  else
    none

/-- f64::MAX, exactly: (2 - 2^-52) * 2^1023 = 2^1024 - 2^971, written as
a literal so that concrete runs of the algorithm evaluate by kernel
reduction. -/
def f64MAX : ℚ :=
  179769313486231570814527423731704356798070567525844996598917476803157260780028538760589558632766878171540458953514382464234321326889464182768467546703537516986049910576551282076245490090389328944075868508455133942304583236903222948165808559332123348274797826204144723168738177180919299881250404026184124858368

/-- f64::MIN, exactly -f64::MAX. -/
def f64MIN : ℚ :=
  -f64MAX

/-- Minimum under the FloatOrd total order; on rationals (no NaN) this is
the numeric minimum.  Written with an if so that it evaluates by kernel
reduction. -/
def fmin (a b : ℚ) : ℚ :=
  if a ≤ b then a else b

/-- Maximum under the FloatOrd total order; see fmin. -/
def fmax (a b : ℚ) : ℚ :=
  if a ≤ b then b else a

theorem fmin_eq_min (a b : ℚ) : fmin a b = min a b :=
  (min_def a b).symm

theorem fmax_eq_max (a b : ℚ) : fmax a b = max a b :=
  (max_def a b).symm

/-- Failure conditions of fit_view_to_paths: the unimplemented! panic on a
relative or arc command, and the Aabb::new assertion failure (the latter
Modelled from the spec, see Aabb.new). -/
inductive FitErr where
  | unimplemented
  | invalidAabb
deriving DecidableEq

/-- Running extremes of fit_view_to_paths: min_x, min_y seeded with
f64::MAX and max_x, max_y seeded with f64::MIN. -/
structure MinMax where
  min_x : ℚ
  min_y : ℚ
  max_x : ℚ
  max_y : ℚ
deriving DecidableEq

/-- Seed state of the reduction. -/
def initMinMax : MinMax :=
  ⟨f64MAX, f64MAX, f64MIN, f64MIN⟩

/-- process_point closure: reduce one point into the running extremes with
the FloatOrd total order (equal to the numeric order here). -/
def process_point (st : MinMax) (p : Point) : MinMax :=
  ⟨fmin st.min_x p.x, fmin st.min_y p.y, fmax st.max_x p.x, fmax st.max_y p.y⟩

/-- Match arm of the fit_view_to_paths loop for one command: absolute
anchor commands contribute their points in order, Close contributes
nothing, relative and arc commands hit unimplemented!. -/
def processCmd (st : MinMax) : LineCommand → Except FitErr MinMax
  | .MoveTo p | .LineTo p | .SmoothQuadtraticCurveTo p =>
      Except.ok (process_point st p)
  | .CubicBezierTo c1 c2 e =>
      Except.ok (process_point (process_point (process_point st c1) c2) e)
  | .SmoothCubicBezierTo c e | .QuadraticBezierTo c e =>
      Except.ok (process_point (process_point st c) e)
  | .Close => Except.ok st
  | _ => Except.error FitErr.unimplemented

/-- Inner loop of fit_view_to_paths over a path's commands. -/
def cmdsFold (st : MinMax) : List LineCommand → Except FitErr MinMax
  | [] => Except.ok st
  | cmd :: rest =>
    match processCmd st cmd with
    | Except.ok st₂ => cmdsFold st₂ rest
    | Except.error e => Except.error e

/-- Loop of fit_view_to_paths over a layer's paths. -/
def pathsFold (st : MinMax) : List Path → Except FitErr MinMax
  | [] => Except.ok st
  | p :: rest =>
    match cmdsFold st p.commands with
    | Except.ok st₂ => pathsFold st₂ rest
    | Except.error e => Except.error e

/-- Outer loop of fit_view_to_paths over the layers. -/
def layersFold (st : MinMax) : List (Nat × Layer) → Except FitErr MinMax
  | [] => Except.ok st
  | kl :: rest =>
    match pathsFold st kl.2.paths with
    | Except.ok st₂ => layersFold st₂ rest
    | Except.error e => Except.error e

/-- Canvas::fit_view_to_paths: early return when the layer map is empty;
otherwise reduce every command of every path of every layer into the
min/max state, build the Aabb and replace the view via set_view. -/
def Canvas.fit_view_to_paths (c : Canvas) : Except FitErr Canvas :=
  if c.layers.isEmpty then
    Except.ok c
  else
    match layersFold initMinMax c.layers with
    | Except.error e => Except.error e
    | Except.ok st =>
      match Aabb.new ⟨st.min_x, st.min_y⟩ ⟨st.max_x, st.max_y⟩ with
      | some v => Except.ok (c.set_view v)
      | none => Except.error FitErr.invalidAabb

/-- Path element of the exported document: the path data and the
stroke-width attribute set from the layer's nib size. -/
structure SvgPath where
  d : Path
  stroke_width : ℚ
deriving DecidableEq

/-- Group element of the exported document, one per layer, from
From(Layer) plus the per-path children added by create_svg.  stroke holds
the rgb() components, each color channel scaled by 255. -/
structure SvgGroup where
  fill : String
  id : Nat
  inkscape_label : Nat
  stroke : Rgb
  stroke_linecap : String
  style : String
  paths : List SvgPath
deriving DecidableEq

/-- Exported document: viewBox as the four formatted numbers
(min.x, min.y, width, height), width and height attributes as a value and
the unit suffix, and the group elements in layer order. -/
structure SvgDoc where
  viewBox : ℚ × ℚ × ℚ × ℚ
  width : ℚ × String
  height : ℚ × String
  groups : List SvgGroup
deriving DecidableEq

/-- From(Layer) for the group element: fill none, id layer{id+1}, inkscape
label id+1, stroke rgb components scaled by 255, round linecap,
display:inline style. -/
def groupOfLayer (l : Layer) : SvgGroup :=
  { fill := "none",
    id := l.id + 1,
    inkscape_label := l.id + 1,
    stroke := ⟨l.color.r * 255, l.color.g * 255, l.color.b * 255⟩,
    stroke_linecap := "round",
    style := "display:inline",
    paths := l.paths.map fun p => { d := p, stroke_width := l.nib_size } }

/-- Canvas::create_svg: viewBox from the current view, width and height
from the paper suffixed by the unit family's SUFFIX, one group per layer
in slot order, one path element per path with stroke-width from the
layer's nib size. -/
def Canvas.create_svg (c : Canvas) : SvgDoc :=
  { viewBox := (c.view.min.x, c.view.min.y, c.view.width, c.view.height),
    width := (c.paper.width, c.paper.suffix),
    height := (c.paper.height, c.paper.suffix),
    groups := c.layers.map fun kl => groupOfLayer kl.2 }

/-- Paper from src/src/units.rs: gross dimensions and four independent
margins. -/
structure Paper where
  width : ℚ
  height : ℚ
  margin_top : ℚ
  margin_bottom : ℚ
  margin_left : ℚ
  margin_right : ℚ
deriving DecidableEq

/-- Paper::new: zero margins. -/
def Paper.new (width height : ℚ) : Paper :=
  { width := width, height := height, margin_top := 0, margin_bottom := 0,
    margin_left := 0, margin_right := 0 }

/-- Paper::make_square from src/src/units.rs. -/
def Paper.make_square (p : Paper) (smallest_margin : ℚ) : Paper :=
  if p.height < p.width then
    let size := p.height - smallest_margin - smallest_margin
    let margin_sides := (p.width - size) / 2
    { width := p.width, height := p.height,
      margin_top := smallest_margin, margin_bottom := smallest_margin,
      margin_left := margin_sides, margin_right := margin_sides }
  else
    let size := p.width - smallest_margin - smallest_margin
    let margin_sides := (p.height - size) / 2
    { width := p.width, height := p.height,
      margin_top := margin_sides, margin_bottom := margin_sides,
      margin_left := smallest_margin, margin_right := smallest_margin }

/-- Polyline from src/crates/2d-geom/src/polyline.rs: an ordered list of
points. -/
structure Polyline where
  vertices : List Point
deriving DecidableEq

/-- Polyline::new: asserts vertices.len() >= 2 (the panic is modelled as
none). -/
def Polyline.new (vertices : List Point) : Option Polyline :=
  if 2 ≤ vertices.length then some ⟨vertices⟩ else none

/-- Polyline::get: slice get, cloned. -/
def Polyline.get (pl : Polyline) (i : Nat) : Option Point :=
  pl.vertices[i]?

/-- Polyline::len. -/
def Polyline.len (pl : Polyline) : Nat :=
  pl.vertices.length

/-- Commands handled by the fit_view_to_paths reduction: the absolute
anchor-point commands and Close.  The remaining (relative and arc)
variants hit the unimplemented! arm. -/
def supported : LineCommand → Bool
  | .MoveTo _ | .LineTo _ | .SmoothQuadtraticCurveTo _ => true
  | .CubicBezierTo _ _ _ => true
  | .SmoothCubicBezierTo _ _ | .QuadraticBezierTo _ _ => true
  | .Close => true
  | _ => false

/-- Points a supported command contributes to the reduction, in processing
order; empty for Close and for the unsupported variants (which never reach
the reduction). -/
def cmdPoints : LineCommand → List Point
  | .MoveTo p | .LineTo p | .SmoothQuadtraticCurveTo p => [p]
  | .CubicBezierTo c1 c2 e => [c1, c2, e]
  | .SmoothCubicBezierTo c e | .QuadraticBezierTo c e => [c, e]
  | _ => []

/-- Points of all commands of a path. -/
def pathPoints (p : Path) : List Point :=
  p.commands.flatMap cmdPoints

/-- All paths on a canvas, flattened over the layers in slot order. -/
def allPaths (c : Canvas) : List Path :=
  c.layers.flatMap fun kl => kl.2.paths

/-- Every command of every path on the canvas is supported by the
view-fitting reduction. -/
def allSupported (c : Canvas) : Prop :=
  ∀ p ∈ allPaths c, ∀ cmd ∈ p.commands, supported cmd = true

theorem processCmd_of_supported (st : MinMax) (cmd : LineCommand)
    (h : supported cmd = true) :
    processCmd st cmd = Except.ok ((cmdPoints cmd).foldl process_point st) := by
  cases cmd <;> simp_all [supported, processCmd, cmdPoints]

theorem processCmd_of_unsupported (st : MinMax) (cmd : LineCommand)
    (h : supported cmd = false) :
    processCmd st cmd = Except.error FitErr.unimplemented := by
  cases cmd <;> simp_all [supported, processCmd]

theorem processCmd_error_elim (st : MinMax) (cmd : LineCommand) (e : FitErr)
    (h : processCmd st cmd = Except.error e) : e = FitErr.unimplemented := by
  cases cmd <;> simp_all [processCmd]

theorem cmdsFold_of_supported (cmds : List LineCommand)
    (h : ∀ cmd ∈ cmds, supported cmd = true) (st : MinMax) :
    cmdsFold st cmds = Except.ok ((cmds.flatMap cmdPoints).foldl process_point st) := by
  induction cmds generalizing st with
  | nil => simp [cmdsFold]
  | cons cmd rest ih =>
    have hc : supported cmd = true := h cmd (List.mem_cons_self cmd rest)
    rw [cmdsFold, processCmd_of_supported st cmd hc]
    simp only [List.flatMap_cons, List.foldl_append]
    exact ih (fun c hm => h c (List.mem_cons_of_mem cmd hm)) _

theorem cmdsFold_of_unsupported (cmds : List LineCommand) (cmd : LineCommand)
    (hm : cmd ∈ cmds) (h : supported cmd = false) (st : MinMax) :
    cmdsFold st cmds = Except.error FitErr.unimplemented := by
  induction cmds generalizing st with
  | nil => cases hm
  | cons hd rest ih =>
    rw [cmdsFold]
    rcases List.mem_cons.mp hm with rfl | hm₂
    · rw [processCmd_of_unsupported st cmd h]
    · cases hp : processCmd st hd with
      | ok st₂ => exact ih hm₂ st₂
      | error e => rw [processCmd_error_elim st hd e hp]

theorem pathsFold_of_supported (paths : List Path)
    (h : ∀ p ∈ paths, ∀ cmd ∈ p.commands, supported cmd = true) (st : MinMax) :
    pathsFold st paths = Except.ok ((paths.flatMap pathPoints).foldl process_point st) := by
  induction paths generalizing st with
  | nil => simp [pathsFold]
  | cons p rest ih =>
    rw [pathsFold, cmdsFold_of_supported p.commands (h p (List.mem_cons_self p rest)) st]
    simp only [List.flatMap_cons, List.foldl_append]
    exact ih (fun q hq => h q (List.mem_cons_of_mem p hq)) _

theorem cmdsFold_error_elim (cmds : List LineCommand) (st : MinMax) (e : FitErr)
    (h : cmdsFold st cmds = Except.error e) : e = FitErr.unimplemented := by
  induction cmds generalizing st with
  | nil => cases h
  | cons cmd rest ih =>
    rw [cmdsFold] at h
    cases hp : processCmd st cmd with
    | ok st₂ =>
      rw [hp] at h
      exact ih st₂ h
    | error e₂ =>
      rw [hp] at h
      cases h
      exact processCmd_error_elim st cmd e hp

theorem pathsFold_of_unsupported (paths : List Path) (p : Path) (cmd : LineCommand)
    (hp : p ∈ paths) (hc : cmd ∈ p.commands) (h : supported cmd = false) (st : MinMax) :
    pathsFold st paths = Except.error FitErr.unimplemented := by
  induction paths generalizing st with
  | nil => cases hp
  | cons hd rest ih =>
    rw [pathsFold]
    rcases List.mem_cons.mp hp with rfl | hp₂
    · rw [cmdsFold_of_unsupported p.commands cmd hc h st]
    · cases hq : cmdsFold st hd.commands with
      | ok st₂ => exact ih hp₂ st₂
      | error e => rw [cmdsFold_error_elim hd.commands st e hq]

theorem layersFold_of_supported (layers : List (Nat × Layer))
    (h : ∀ kl ∈ layers, ∀ p ∈ kl.2.paths, ∀ cmd ∈ p.commands, supported cmd = true)
    (st : MinMax) :
    layersFold st layers =
      Except.ok (((layers.flatMap fun kl => kl.2.paths).flatMap pathPoints).foldl
        process_point st) := by
  induction layers generalizing st with
  | nil => simp [layersFold]
  | cons kl rest ih =>
    rw [layersFold, pathsFold_of_supported kl.2.paths (h kl (List.mem_cons_self kl rest)) st]
    simp only [List.flatMap_cons, List.flatMap_append, List.foldl_append]
    exact ih (fun kl₂ hm => h kl₂ (List.mem_cons_of_mem kl hm)) _

theorem pathsFold_error_elim (paths : List Path) (st : MinMax) (e : FitErr)
    (h : pathsFold st paths = Except.error e) : e = FitErr.unimplemented := by
  induction paths generalizing st with
  | nil => cases h
  | cons p rest ih =>
    rw [pathsFold] at h
    cases hq : cmdsFold st p.commands with
    | ok st₂ =>
      rw [hq] at h
      exact ih st₂ h
    | error e₂ =>
      rw [hq] at h
      cases h
      exact cmdsFold_error_elim p.commands st e hq

theorem layersFold_of_unsupported (layers : List (Nat × Layer)) (kl : Nat × Layer)
    (p : Path) (cmd : LineCommand) (hl : kl ∈ layers) (hp : p ∈ kl.2.paths)
    (hc : cmd ∈ p.commands) (h : supported cmd = false) (st : MinMax) :
    layersFold st layers = Except.error FitErr.unimplemented := by
  induction layers generalizing st with
  | nil => cases hl
  | cons hd rest ih =>
    rw [layersFold]
    rcases List.mem_cons.mp hl with rfl | hl₂
    · rw [pathsFold_of_unsupported kl.2.paths p cmd hp hc h st]
    · cases hq : pathsFold st hd.2.paths with
      | ok st₂ => exact ih hl₂ st₂
      | error e => rw [pathsFold_error_elim hd.2.paths st e hq]

/-- Claim C10: Canvas::new(paper) initializes the view AABB to the box
from (0,0) to (paper.width, paper.height), the full gross sheet with no
margins subtracted, so exporting without a prior fit_view_to_paths or
set_view yields a viewBox covering the whole paper. -/
theorem canvas_new_view_full_paper (p : CanvasPaper) (hw : 0 ≤ p.width)
    (hh : 0 ≤ p.height) :
    ∃ c, Canvas.new p = some c ∧ c.view = ⟨⟨0, 0⟩, ⟨p.width, p.height⟩⟩ ∧
      c.layers = [] ∧ (Canvas.create_svg c).viewBox = (0, 0, p.width, p.height) := by
  refine ⟨{ paper := p, view := ⟨⟨0, 0⟩, ⟨p.width, p.height⟩⟩, layers := [],
            layer_id_counter := 0, next_key := 0 }, ?_, rfl, rfl, ?_⟩
  · simp [Canvas.new, Aabb.new, hw, hh]
  · simp [Canvas.create_svg, Aabb.width, Aabb.height]

/-- Witness for canvas_new_view_full_paper at the DIN A4 paper. -/
theorem canvas_new_view_full_paper_witness :
    (0 : ℚ) ≤ 210 ∧ (0 : ℚ) ≤ 297 ∧
      ∃ c, Canvas.new ⟨210, 297, 10, "mm"⟩ = some c ∧
        c.view = ⟨⟨0, 0⟩, ⟨210, 297⟩⟩ ∧ c.layers = [] ∧
        (Canvas.create_svg c).viewBox = (0, 0, 210, 297) :=
  ⟨by norm_num, by norm_num,
    canvas_new_view_full_paper ⟨210, 297, 10, "mm"⟩ (by norm_num) (by norm_num)⟩

/-- Canvas with a single layer holding no paths, for the C1 counterexample. -/
def emptyLayerCanvas : Canvas :=
  { paper := ⟨10, 10, 0, "mm"⟩, view := ⟨⟨0, 0⟩, ⟨10, 10⟩⟩,
    layers := [(0, { id := 0, paths := [], color := ⟨0, 0, 0⟩, nib_size := 1 })],
    layer_id_counter := 1, next_key := 1 }

/-- Claim C1, counterexample: a Canvas whose only layer has an empty path
collection is not left unchanged by fit_view_to_paths; the sentinel-seeded
extremes produce an inverted box and the Aabb construction fails, instead
of the call being a no-op. -/
theorem fit_view_empty_layer_not_noop :
    emptyLayerCanvas.fit_view_to_paths = Except.error FitErr.invalidAabb ∧
      emptyLayerCanvas.fit_view_to_paths ≠ Except.ok emptyLayerCanvas := by
  decide

/-- Claim C1, amended: fit_view_to_paths is a no-op exactly on a Canvas
with no layers at all; a Canvas whose layers exist but hold no paths
instead fails the AABB construction (see the counterexample). -/
theorem fit_view_noop_on_no_layers (c : Canvas) (h : c.layers = []) :
    c.fit_view_to_paths = Except.ok c := by
  simp [Canvas.fit_view_to_paths, h]

/-- Witness for fit_view_noop_on_no_layers at a concrete layerless canvas. -/
theorem fit_view_noop_on_no_layers_witness :
    (Canvas.mk ⟨10, 10, 0, "mm"⟩ ⟨⟨0, 0⟩, ⟨10, 10⟩⟩ [] 0 0).layers = [] ∧
      (Canvas.mk ⟨10, 10, 0, "mm"⟩ ⟨⟨0, 0⟩, ⟨10, 10⟩⟩ [] 0 0).fit_view_to_paths =
        Except.ok (Canvas.mk ⟨10, 10, 0, "mm"⟩ ⟨⟨0, 0⟩, ⟨10, 10⟩⟩ [] 0 0) :=
  ⟨rfl, fit_view_noop_on_no_layers _ rfl⟩

/-- Claim C2: whenever any layer's path contains a relative command (the
By variants, horizontal/vertical included) or an arc command,
fit_view_to_paths signals the distinct unimplemented condition and never
returns a numeric bounding box that silently skips the command. -/
theorem fit_view_unsupported_errors (c : Canvas)
    (h : ∃ kl ∈ c.layers, ∃ p ∈ kl.2.paths, ∃ cmd ∈ p.commands, supported cmd = false) :
    c.fit_view_to_paths = Except.error FitErr.unimplemented := by
  obtain ⟨kl, hkl, p, hp, cmd, hc, hsup⟩ := h
  have hne : ¬c.layers.isEmpty := by
    cases hl : c.layers with
    | nil => rw [hl] at hkl; cases hkl
    | cons a l => simp [hl]
  unfold Canvas.fit_view_to_paths
  rw [if_neg hne, layersFold_of_unsupported c.layers kl p cmd hkl hp hc hsup initMinMax]

/-- Witness for fit_view_unsupported_errors: a canvas whose single path
holds an ArcTo command. -/
theorem fit_view_unsupported_errors_witness :
    (Canvas.mk ⟨10, 10, 0, "mm"⟩ ⟨⟨0, 0⟩, ⟨10, 10⟩⟩
        [(0, { id := 0,
               paths := [⟨[LineCommand.ArcTo ⟨1, 1⟩ 0 false false ⟨2, 2⟩]⟩],
               color := ⟨0, 0, 0⟩, nib_size := 1 })] 1 1).fit_view_to_paths =
      Except.error FitErr.unimplemented :=
  fit_view_unsupported_errors _ (by decide)

/-- Claim C3: on every Canvas whose view already satisfies the AABB
invariant (as every Rust Aabb does by construction), a completing
fit_view_to_paths call leaves a view with min.x <= max.x and
min.y <= max.y. -/
theorem fit_view_min_le_max (c c₂ : Canvas)
    (hwf : c.view.min.x ≤ c.view.max.x ∧ c.view.min.y ≤ c.view.max.y)
    (h : c.fit_view_to_paths = Except.ok c₂) :
    c₂.view.min.x ≤ c₂.view.max.x ∧ c₂.view.min.y ≤ c₂.view.max.y := by
  unfold Canvas.fit_view_to_paths at h
  by_cases he : c.layers.isEmpty
  · rw [if_pos he] at h
    cases h
    exact hwf
  · rw [if_neg he] at h
    cases hq : layersFold initMinMax c.layers with
    | error e =>
      simp only [hq] at h
      exact Except.noConfusion h
    | ok st =>
      simp only [hq] at h
      cases han : Aabb.new ⟨st.min_x, st.min_y⟩ ⟨st.max_x, st.max_y⟩ with
      | none =>
        simp only [han] at h
        exact Except.noConfusion h
      | some v =>
        simp only [han, Except.ok.injEq] at h
        subst h
        unfold Aabb.new at han
        by_cases hcond : st.min_x ≤ st.max_x ∧ st.min_y ≤ st.max_y
        · rw [if_pos hcond] at han
          cases han
          exact hcond
        · rw [if_neg hcond] at han
          cases han

/-- Canvas with a single MoveTo(1,2) command, for the C3 witness. -/
def singlePointCanvas : Canvas :=
  { paper := ⟨10, 10, 0, "mm"⟩, view := ⟨⟨0, 0⟩, ⟨10, 10⟩⟩,
    layers := [(0, { id := 0, paths := [⟨[LineCommand.MoveTo ⟨1, 2⟩]⟩],
                     color := ⟨0, 0, 0⟩, nib_size := 1 })],
    layer_id_counter := 1, next_key := 1 }

/-- Fitted form of singlePointCanvas: the view is the degenerate box at
(1,2). -/
def singlePointCanvasFit : Canvas :=
  singlePointCanvas.set_view ⟨⟨1, 2⟩, ⟨1, 2⟩⟩

/-- Witness for fit_view_min_le_max at singlePointCanvas. -/
theorem fit_view_min_le_max_witness :
    singlePointCanvas.fit_view_to_paths = Except.ok singlePointCanvasFit ∧
      (singlePointCanvasFit.view.min.x ≤ singlePointCanvasFit.view.max.x ∧
        singlePointCanvasFit.view.min.y ≤ singlePointCanvasFit.view.max.y) :=
  ⟨by decide,
   fit_view_min_le_max singlePointCanvas singlePointCanvasFit (by decide) (by decide)⟩

/-- Claim C6: make_square on a paper strictly wider than tall yields
margin_top = margin_bottom = m, equal left/right margins, and an exactly
square drawable region. -/
theorem make_square_wider_square_region (p : Paper) (m : ℚ) (h : p.height < p.width) :
    (p.make_square m).margin_top = m ∧ (p.make_square m).margin_bottom = m ∧
      (p.make_square m).margin_left = (p.make_square m).margin_right ∧
      (p.make_square m).width - (p.make_square m).margin_left -
          (p.make_square m).margin_right =
        (p.make_square m).height - (p.make_square m).margin_top -
          (p.make_square m).margin_bottom := by
  unfold Paper.make_square
  rw [if_pos h]
  refine ⟨rfl, rfl, rfl, ?_⟩
  show p.width - (p.width - (p.height - m - m)) / 2 - (p.width - (p.height - m - m)) / 2 =
    p.height - m - m
  ring

/-- Witness for make_square_wider_square_region on a 297x210 landscape
sheet with a 10 margin. -/
theorem make_square_wider_square_region_witness :
    ((Paper.new 297 210).height < (Paper.new 297 210).width) ∧
      (((Paper.new 297 210).make_square 10).margin_top = 10 ∧
        ((Paper.new 297 210).make_square 10).margin_bottom = 10 ∧
        ((Paper.new 297 210).make_square 10).margin_left =
          ((Paper.new 297 210).make_square 10).margin_right ∧
        ((Paper.new 297 210).make_square 10).width -
            ((Paper.new 297 210).make_square 10).margin_left -
            ((Paper.new 297 210).make_square 10).margin_right =
          ((Paper.new 297 210).make_square 10).height -
            ((Paper.new 297 210).make_square 10).margin_top -
            ((Paper.new 297 210).make_square 10).margin_bottom) :=
  ⟨by norm_num [Paper.new],
   make_square_wider_square_region (Paper.new 297 210) 10 (by norm_num [Paper.new])⟩

/-- Claim C8: a Polyline built from at least two points p0..pn has
len() = n+1, get(i) = Some(points[i]) for every valid index and
get(n+1) = None; construction from fewer than two points fails
immediately. -/
theorem polyline_len_get_spec (pts : List Point) :
    (2 ≤ pts.length →
      ∃ pl, Polyline.new pts = some pl ∧ pl.len = pts.length ∧
        (∀ i, (hi : i < pts.length) → pl.get i = some (pts.get ⟨i, hi⟩)) ∧
        pl.get pts.length = none) ∧
    (pts.length < 2 → Polyline.new pts = none) := by
  constructor
  · intro h
    refine ⟨⟨pts⟩, ?_, rfl, ?_, ?_⟩
    · simp [Polyline.new, h]
    · intro i hi
      simp [Polyline.get, List.getElem?_eq_getElem hi, List.get_eq_getElem]
    · simp [Polyline.get]
  · intro h
    simp only [Polyline.new, ite_eq_right_iff]
    omega

/-- Witness for polyline_len_get_spec on a three-point polyline. -/
theorem polyline_len_get_spec_witness :
    (2 ≤ ([⟨0, 0⟩, ⟨1, 1⟩, ⟨2, 0⟩] : List Point).length) ∧
      ∃ pl, Polyline.new [⟨0, 0⟩, ⟨1, 1⟩, ⟨2, 0⟩] = some pl ∧
        pl.len = 3 ∧ pl.get 3 = none :=
  ⟨by norm_num,
   match (polyline_len_get_spec [⟨0, 0⟩, ⟨1, 1⟩, ⟨2, 0⟩]).1 (by norm_num) with
   | ⟨pl, hnew, hlen, _, hnone⟩ => ⟨pl, hnew, hlen, hnone⟩⟩

/-- A4 paper as accessed by the canvas, with a uniform 10mm margin. -/
def a4Paper : CanvasPaper :=
  ⟨210, 297, 10, "mm"⟩

/-- Normalized-space diagonal from (0,0) to (1,1). -/
def diagonalPath : Path :=
  ⟨[LineCommand.MoveTo ⟨0, 0⟩, LineCommand.LineTo ⟨1, 1⟩]⟩

/-- C5 scenario: new canvas on a4Paper, one layer, draw_n the diagonal. -/
def drawnScenario : Option Canvas :=
  (Canvas.new a4Paper).bind fun c₀ =>
    let ck := c₀.create_layer ⟨⟨0, 0, 0⟩, 1⟩
    ck.1.draw_n ck.2 [diagonalPath]

/-- Claim C5: on a 210x297 paper with a 10mm margin, draw_n of the
normalized (0,0)-(1,1) segment appends the canvas-space path with
endpoints (10,10) and (200,287): scaled by the 190x277 usable area, then
offset by the margin. -/
theorem draw_n_scenario_endpoints :
    drawnScenario.map allPaths =
      some [⟨[LineCommand.MoveTo ⟨10, 10⟩, LineCommand.LineTo ⟨200, 287⟩]⟩] := by
  unfold drawnScenario a4Paper diagonalPath Canvas.new
  rw [Aabb.new, if_pos (by norm_num)]
  simp [Canvas.create_layer, Canvas.draw_n, Canvas.contains_key, Canvas.canvas_transform,
    Canvas.width, Canvas.height, Transform2D.scale, Transform2D.then_translate,
    Path.transform, LineCommand.transform, Transform2D.applyPoint, allPaths]
  norm_num

theorem process_point_right_comm (st : MinMax) (p q : Point) :
    process_point (process_point st p) q = process_point (process_point st q) p := by
  have hmax : ∀ a b c : ℚ, max (max a b) c = max (max a c) b := by
    intro a b c
    rw [max_assoc, max_comm b c, ← max_assoc]
  simp only [process_point, fmin_eq_min, fmax_eq_max, MinMax.mk.injEq]
  exact ⟨min_right_comm _ _ _, min_right_comm _ _ _, hmax _ _ _, hmax _ _ _⟩

/-- Tail of fit_view_to_paths after the reduction reached the same
extremes on two canvases: the resulting views agree. -/
theorem fit_tail_view_eq (c₁ c₂ : Canvas) (st : MinMax) :
    (match Aabb.new ⟨st.min_x, st.min_y⟩ ⟨st.max_x, st.max_y⟩ with
      | some v => Except.ok (c₁.set_view v)
      | none => Except.error FitErr.invalidAabb).map Canvas.view =
    (match Aabb.new ⟨st.min_x, st.min_y⟩ ⟨st.max_x, st.max_y⟩ with
      | some v => Except.ok (c₂.set_view v)
      | none => Except.error FitErr.invalidAabb).map Canvas.view := by
  cases Aabb.new ⟨st.min_x, st.min_y⟩ ⟨st.max_x, st.max_y⟩ with
  | none => rfl
  | some v => simp [Except.map, Canvas.set_view]

instance decAllSupported (c : Canvas) : Decidable (allSupported c) := by
  unfold allSupported
  infer_instance

/-- Two-path canvas for the C4 counterexample, holding no paths but a view
differing from its sibling. -/
def noPathCanvasA : Canvas :=
  { paper := ⟨10, 10, 0, "mm"⟩, view := ⟨⟨0, 0⟩, ⟨1, 1⟩⟩, layers := [],
    layer_id_counter := 0, next_key := 0 }

/-- Sibling of noPathCanvasA with a different view. -/
def noPathCanvasB : Canvas :=
  { paper := ⟨10, 10, 0, "mm"⟩, view := ⟨⟨0, 0⟩, ⟨2, 2⟩⟩, layers := [],
    layer_id_counter := 0, next_key := 0 }

/-- Claim C4, counterexample: two canvases holding the same (here empty)
multiset of paths, all commands trivially supported, for which
fit_view_to_paths completes on both yet the final views differ, because
the call is a no-op that keeps each canvas's own prior view. -/
theorem fit_view_order_counterexample :
    allPaths noPathCanvasA = allPaths noPathCanvasB ∧
      allSupported noPathCanvasA ∧
      noPathCanvasA.fit_view_to_paths = Except.ok noPathCanvasA ∧
      noPathCanvasB.fit_view_to_paths = Except.ok noPathCanvasB ∧
      noPathCanvasA.view ≠ noPathCanvasB.view := by
  decide

/-- Claim C4, amended: for canvases holding the same nonempty multiset of
paths (all commands supported by view-fitting), however the paths are
ordered within layers or distributed across layers, fit_view_to_paths
produces the same outcome for the view on both. -/
theorem fit_view_order_independent (c₁ c₂ : Canvas)
    (hperm : (allPaths c₁).Perm (allPaths c₂))
    (hne : allPaths c₁ ≠ [])
    (hsupp : allSupported c₁) :
    (c₁.fit_view_to_paths).map Canvas.view = (c₂.fit_view_to_paths).map Canvas.view := by
  have hsupp₂ : allSupported c₂ := fun p hp => hsupp p (hperm.mem_iff.mpr hp)
  have hlayers : ∀ c : Canvas, allPaths c ≠ [] → ¬c.layers.isEmpty := by
    intro c hc h
    apply hc
    rw [List.isEmpty_iff] at h
    unfold allPaths
    rw [h]
    rfl
  have hl₁ : ¬c₁.layers.isEmpty := hlayers c₁ hne
  have hl₂ : ¬c₂.layers.isEmpty :=
    hlayers c₂ fun h => hne (List.Perm.eq_nil (h ▸ hperm))
  have hmem : ∀ c : Canvas, allSupported c →
      ∀ kl ∈ c.layers, ∀ p ∈ kl.2.paths, ∀ cmd ∈ p.commands, supported cmd = true := by
    intro c hc kl hkl p hp cmd hcmd
    exact hc p (List.mem_flatMap.mpr ⟨kl, hkl, hp⟩) cmd hcmd
  have hpts : ((c₁.layers.flatMap fun kl => kl.2.paths).flatMap pathPoints).Perm
      ((c₂.layers.flatMap fun kl => kl.2.paths).flatMap pathPoints) :=
    List.Perm.flatMap_right pathPoints hperm
  have hst : ((c₁.layers.flatMap fun kl => kl.2.paths).flatMap pathPoints).foldl
        process_point initMinMax =
      ((c₂.layers.flatMap fun kl => kl.2.paths).flatMap pathPoints).foldl
        process_point initMinMax :=
    hpts.foldl_eq' (fun x _ y _ z => process_point_right_comm z x y) initMinMax
  unfold Canvas.fit_view_to_paths
  rw [if_neg hl₁, if_neg hl₂]
  simp only [layersFold_of_supported c₁.layers (hmem c₁ hsupp) initMinMax,
    layersFold_of_supported c₂.layers (hmem c₂ hsupp₂) initMinMax]
  rw [hst]
  exact fit_tail_view_eq c₁ c₂ _

/-- First sample path for the C4 witness. -/
def samplePathA : Path :=
  ⟨[LineCommand.MoveTo ⟨1, 2⟩, LineCommand.LineTo ⟨3, 4⟩]⟩

/-- Second sample path for the C4 witness. -/
def samplePathB : Path :=
  ⟨[LineCommand.MoveTo ⟨5, 6⟩]⟩

/-- Canvas holding samplePathA and samplePathB in one layer. -/
def permLayerCanvasA : Canvas :=
  { paper := ⟨10, 10, 0, "mm"⟩, view := ⟨⟨0, 0⟩, ⟨10, 10⟩⟩,
    layers := [(0, { id := 0, paths := [samplePathA, samplePathB],
                     color := ⟨0, 0, 0⟩, nib_size := 1 })],
    layer_id_counter := 1, next_key := 1 }

/-- Canvas holding the same two paths distributed over two layers in the
opposite order. -/
def permLayerCanvasB : Canvas :=
  { paper := ⟨20, 20, 1, "mm"⟩, view := ⟨⟨0, 0⟩, ⟨20, 20⟩⟩,
    layers := [(0, { id := 0, paths := [samplePathB], color := ⟨0, 0, 0⟩, nib_size := 1 }),
               (1, { id := 1, paths := [samplePathA], color := ⟨1, 0, 0⟩, nib_size := 2 })],
    layer_id_counter := 2, next_key := 2 }

/-- Witness for fit_view_order_independent at the two sample canvases. -/
theorem fit_view_order_independent_witness :
    (allPaths permLayerCanvasA).Perm (allPaths permLayerCanvasB) ∧
      allPaths permLayerCanvasA ≠ [] ∧ allSupported permLayerCanvasA ∧
      (permLayerCanvasA.fit_view_to_paths).map Canvas.view =
        (permLayerCanvasB.fit_view_to_paths).map Canvas.view :=
  ⟨by decide, by decide, by decide,
   fit_view_order_independent permLayerCanvasA permLayerCanvasB
     (by decide) (by decide) (by decide)⟩

theorem eraseP_key_all_gone (l : List (Nat × Layer)) (k : Nat)
    (hnd : (l.map Prod.fst).Nodup) :
    ((l.eraseP fun kl => kl.1 == k).any fun kl => kl.1 == k) = false := by
  induction l with
  | nil => simp
  | cons a l ih =>
    simp only [List.map_cons, List.nodup_cons] at hnd
    by_cases ha : (a.1 == k) = true
    · have he : (a :: l).eraseP (fun kl => kl.1 == k) = l :=
        List.eraseP_cons_of_pos ha
      rw [he, List.any_eq_false]
      intro kl hkl hk
      apply hnd.1
      have hkk : kl.1 = k := by simpa using hk
      have hak : a.1 = k := by simpa using ha
      rw [hak, ← hkk]
      exact List.mem_map.mpr ⟨kl, hkl, rfl⟩
    · have he : (a :: l).eraseP (fun kl => kl.1 == k) =
          a :: l.eraseP (fun kl => kl.1 == k) :=
        List.eraseP_cons_of_neg (by simpa using ha)
      rw [he]
      simp only [List.any_cons, ha, Bool.false_or]
      exact ih hnd.2

/-- Claim C9: remove_layer returns a checkable typed failure exactly on a
key absent from the canvas; after a successful removal, drawing into the
removed key fails the same way (the get_layer unwrap panic, modelled as
none) as drawing with a key the canvas never issued. -/
theorem remove_layer_then_draw_fails (c : Canvas) (k : Nat) (ps : List Path)
    (hnd : (c.layers.map Prod.fst).Nodup) :
    ((c.remove_layer k).isOk = true ↔ c.contains_key k = true) ∧
      (∀ c₂, c.remove_layer k = Except.ok c₂ → c₂.draw k ps = none) ∧
      (c.contains_key k = false → c.draw k ps = none) := by
  refine ⟨?_, ?_, ?_⟩
  · unfold Canvas.remove_layer
    by_cases h : c.contains_key k = true
    · simp [h, Except.isOk, Except.toBool]
    · simp [h, Except.isOk, Except.toBool]
  · intro c₂ h
    unfold Canvas.remove_layer at h
    by_cases hk : c.contains_key k = true
    · rw [if_pos hk] at h
      cases h
      unfold Canvas.draw
      rw [if_neg]
      simp only [Canvas.contains_key]
      rw [eraseP_key_all_gone c.layers k hnd]
      simp
    · rw [if_neg hk] at h
      exact Except.noConfusion h
  · intro h
    unfold Canvas.draw
    rw [if_neg]
    rw [h]
    simp

/-- Canvas with one live layer under key 0, for the C9 witness. -/
def oneLayerCanvas : Canvas :=
  { paper := ⟨10, 10, 0, "mm"⟩, view := ⟨⟨0, 0⟩, ⟨10, 10⟩⟩,
    layers := [(0, { id := 0, paths := [], color := ⟨0, 0, 0⟩, nib_size := 1 })],
    layer_id_counter := 1, next_key := 1 }

/-- Witness for remove_layer_then_draw_fails at oneLayerCanvas, key 0. -/
theorem remove_layer_then_draw_fails_witness :
    (oneLayerCanvas.layers.map Prod.fst).Nodup ∧
      (((oneLayerCanvas.remove_layer 0).isOk = true ↔
          oneLayerCanvas.contains_key 0 = true) ∧
        (∀ c₂, oneLayerCanvas.remove_layer 0 = Except.ok c₂ →
          c₂.draw 0 [samplePathA] = none) ∧
        (oneLayerCanvas.contains_key 0 = false →
          oneLayerCanvas.draw 0 [samplePathA] = none)) :=
  ⟨by decide, remove_layer_then_draw_fails oneLayerCanvas 0 [samplePathA] (by decide)⟩

/-- C7 scenario: fresh canvas, two layers created from two pens, one path
drawn into each in creation order, then create_svg. -/
def twoLayerScenario (paper : CanvasPaper) (pen₁ pen₂ : Pen) (path₁ path₂ : Path) :
    Option SvgDoc :=
  (Canvas.new paper).bind fun c₀ =>
    let ck₁ := c₀.create_layer pen₁
    let ck₂ := ck₁.1.create_layer pen₂
    (ck₂.1.draw ck₁.2 [path₁]).bind fun c₃ =>
      (c₃.draw ck₂.2 [path₂]).map fun c₄ => c₄.create_svg

/-- Claim C7: two layers, one path each, exported: the document's viewBox
is the view AABB as (min.x, min.y, width, height), the width/height
attributes are the paper dimensions with the unit suffix, and there are
exactly two groups in creation order, each holding exactly one path
element whose stroke-width is that layer's nib size. -/
theorem create_svg_two_layer_scenario (paper : CanvasPaper) (pen₁ pen₂ : Pen)
    (path₁ path₂ : Path) (hw : 0 ≤ paper.width) (hh : 0 ≤ paper.height) :
    twoLayerScenario paper pen₁ pen₂ path₁ path₂ = some
      { viewBox := (0, 0, paper.width, paper.height),
        width := (paper.width, paper.suffix),
        height := (paper.height, paper.suffix),
        groups := [
          { fill := "none", id := 1, inkscape_label := 1,
            stroke := ⟨pen₁.rgb_color.r * 255, pen₁.rgb_color.g * 255,
                       pen₁.rgb_color.b * 255⟩,
            stroke_linecap := "round", style := "display:inline",
            paths := [{ d := path₁.transform
                          (Transform2D.translation paper.margin paper.margin),
                        stroke_width := pen₁.nib_size_mm }] },
          { fill := "none", id := 2, inkscape_label := 2,
            stroke := ⟨pen₂.rgb_color.r * 255, pen₂.rgb_color.g * 255,
                       pen₂.rgb_color.b * 255⟩,
            stroke_linecap := "round", style := "display:inline",
            paths := [{ d := path₂.transform
                          (Transform2D.translation paper.margin paper.margin),
                        stroke_width := pen₂.nib_size_mm }] }] } := by
  unfold twoLayerScenario Canvas.new
  rw [Aabb.new]
  rw [if_pos ⟨hw, hh⟩]
  simp [Canvas.create_layer, Canvas.draw, Canvas.contains_key, Canvas.margin_transform,
    Canvas.create_svg, groupOfLayer, Aabb.width, Aabb.height]

/-- Witness for create_svg_two_layer_scenario at the A4 paper with two
concrete pens and paths. -/
theorem create_svg_two_layer_scenario_witness :
    (0 : ℚ) ≤ a4Paper.width ∧ (0 : ℚ) ≤ a4Paper.height ∧
      twoLayerScenario a4Paper ⟨⟨0, 0, 1⟩, 1⟩ ⟨⟨1, 0, 0⟩, 2⟩ samplePathA samplePathB =
        some
          { viewBox := (0, 0, a4Paper.width, a4Paper.height),
            width := (a4Paper.width, a4Paper.suffix),
            height := (a4Paper.height, a4Paper.suffix),
            groups := [
              { fill := "none", id := 1, inkscape_label := 1, stroke := ⟨0, 0, 255⟩,
                stroke_linecap := "round", style := "display:inline",
                paths := [{ d := samplePathA.transform
                              (Transform2D.translation a4Paper.margin a4Paper.margin),
                            stroke_width := 1 }] },
              { fill := "none", id := 2, inkscape_label := 2, stroke := ⟨255, 0, 0⟩,
                stroke_linecap := "round", style := "display:inline",
                paths := [{ d := samplePathB.transform
                              (Transform2D.translation a4Paper.margin a4Paper.margin),
                            stroke_width := 2 }] }] } := by
  refine ⟨by norm_num [a4Paper], by norm_num [a4Paper], ?_⟩
  have h := create_svg_two_layer_scenario a4Paper ⟨⟨0, 0, 1⟩, 1⟩ ⟨⟨1, 0, 0⟩, 2⟩
    samplePathA samplePathB (by norm_num [a4Paper]) (by norm_num [a4Paper])
  rw [h]
  norm_num

end Fart
